import Mathlib

/-!
Verification of the authentication & authorization subsystem of plana-api.

The definitions below are a shallow embedding of the Python sources:
  * `plana/api/auth/oauth.py`      — Discord OAuth client, JWT mint/verify
  * `plana/api/middleware/auth.py` — AuthMiddleware (dispatch, authenticate,
                                      route classification, guild-id scraping)
  * `plana/api/middleware/types.py`— AuthType / AuthData / AuthConstants
  * `plana/api/middleware/utils.py`— require_permission and the permission cache

Machine integers are modelled as `Nat`/`Int`, Python `Optional[str]` as
`Option String`, Python exceptions as `Except`/explicit error values, and
wall-clock time as a `Nat` of seconds passed in explicitly.  Network I/O is
modelled by passing the upstream response (or its failure) as an explicit
argument.
-/

namespace Plana

/-- A JSON primitive as it can appear in a Discord guild-membership entry:
the code normalizes ids with `str(...)` and permissions with `int(...)`, so
both string and integer payloads occur. -/
inductive PyVal where
  | str (s : String)
  | int (n : Int)
deriving DecidableEq

/-- Python `str(...)` on a json primitive. -/
def pyStr : PyVal → String
  | .str s => s
  | .int n => toString n

/-- ASCII decimal digit test (`\d` in the regex, digits in `int(...)`). -/
def isAsciiDigit (c : Char) : Bool :=
  '0' ≤ c && c ≤ '9'

/-- Tail of Python `int(string)` digit parsing: digits, with single
underscores allowed between digits. -/
def parseDigitsTail (acc : Nat) : List Char → Option Nat
  | [] => some acc
  | '_' :: c :: rest =>
    if isAsciiDigit c then parseDigitsTail (acc * 10 + (c.toNat - 48)) rest else none
  | c :: rest =>
    if isAsciiDigit c then parseDigitsTail (acc * 10 + (c.toNat - 48)) rest else none

/-- Nonempty digit run of Python `int(string)`. -/
def parseDigits : List Char → Option Nat
  | [] => none
  | c :: rest =>
    if isAsciiDigit c then parseDigitsTail (c.toNat - 48) rest else none

/-- Python `str.strip()` restricted to ASCII whitespace, over the char list. -/
def pyStrip (s : String) : List Char :=
  ((s.data.dropWhile Char.isWhitespace).reverse.dropWhile Char.isWhitespace).reverse

/-- Python `int(string)`: strip whitespace, optional sign, decimal digits
(single underscores between digits allowed).  `none` models the `ValueError`
raised on malformed input. -/
def pyStrToInt (s : String) : Option Int :=
  match pyStrip s with
  | '-' :: rest => (parseDigits rest).map (fun n => -(n : Int))
  | '+' :: rest => (parseDigits rest).map (fun n => (n : Int))
  | cs => (parseDigits cs).map (fun n => (n : Int))

/-- Python `int(value)` on a json primitive. -/
def pyInt : PyVal → Option Int
  | .str s => pyStrToInt s
  | .int n => some n

/-- One guild entry as returned by `GET /users/@me/guilds`; `none` fields
model missing dictionary keys (`guild["id"]` raises `KeyError`,
`guild.get("permissions", 0)` defaults). -/
structure RawGuild where
  id : Option PyVal
  permissions : Option PyVal
deriving DecidableEq

/-- ADMIN_PERMISSION = 0x00000008 (oauth.py, module constant). -/
def ADMIN_PERMISSION : Int := 0x00000008

/-- Python `&` on arbitrary-precision ints (two's complement on negatives):
`-(m+1)` has the complemented bits of `m`, and `a AND NOT b` over `Nat` is
`a ^^^ (a &&& b)`. -/
def pyAnd : Int → Int → Int
  | .ofNat m, .ofNat n => .ofNat (m &&& n)
  | .ofNat m, .negSucc n => .ofNat (m ^^^ (m &&& n))
  | .negSucc m, .ofNat n => .ofNat (n ^^^ (n &&& m))
  | .negSucc m, .negSucc n => .negSucc (m ||| n)

/-- Models `next((guild for guild in user_guilds if str(guild["id"]) ==
str(guild_id)), None)`.  A missing `id` key raises `KeyError`
(`Except.error`). -/
def findTargetGuild (guild_id : String) : List RawGuild → Except Unit (Option RawGuild)
  | [] => .ok none
  | g :: rest =>
    match g.id with
    | none => .error ()
    | some v => if pyStr v = guild_id then .ok (some g) else findTargetGuild guild_id rest

/-- The part of `check_guild_permissions` after the guild list has arrived:
locate the target guild (absent → `False`), read `permissions` (default 0),
parse it with `int(...)` (`ValueError` → `Except.error`), and test the
administrator bit. -/
def checkAfterFetch (guild_id : String) (user_guilds : List RawGuild) : Except Unit Bool :=
  match findTargetGuild guild_id user_guilds with
  | .error e => .error e
  | .ok none => .ok false
  | .ok (some target_guild) =>
    match pyInt (target_guild.permissions.getD (PyVal.int 0)) with
    | none => .error ()
    | some permissions => .ok (decide (pyAnd permissions ADMIN_PERMISSION ≠ 0))

/-- The body of `DiscordOAuth.check_guild_permissions` inside its
`try:` block.  `fetched` is the outcome of the `get_user_guilds` network
call; `Except.error` is any raised exception (network failure, `KeyError`,
`ValueError` from `int(...)`). -/
def checkGuildPermissionsE (guild_id : String)
    (fetched : Except Unit (List RawGuild)) : Except Unit Bool :=
  match fetched with
  | .error e => .error e
  | .ok user_guilds => checkAfterFetch guild_id user_guilds

/-- `DiscordOAuth.check_guild_permissions` (oauth.py lines 64–98): the
`except Exception` handler turns every failure into `False`. -/
def check_guild_permissions (guild_id : String)
    (fetched : Except Unit (List RawGuild)) : Bool :=
  match checkGuildPermissionsE guild_id fetched with
  | .ok b => b
  | .error _ => false

/-! ## JWT session credentials (oauth.py lines 100–129)

`create_jwt_token` / `verify_jwt_token` delegate signing to the external
PyJWT collaborator (`jwt.encode` / `jwt.decode` with HS256).  That library
is not part of this repository; it is modelled as an idealized
message-authentication scheme over the decoded payload. -/

/-- The JWT payload built by `create_jwt_token`. -/
structure Payload where
  user_id : String
  username : String
  avatar : Option String
  discord_access_token : String
  iat : Nat
  exp : Nat
deriving DecidableEq

/-- A signature value attached to a token: either a MAC computed with some
key over some payload, or bytes that are no valid MAC at all. -/
inductive JwtSig where
  | mac (key : String) (msg : Payload) : JwtSig
  | garbage : JwtSig
deriving DecidableEq

/-- Modelled from the spec: the space of credential strings, identified with
their parse — either a structurally well-formed token (payload plus
signature) or a malformed string. -/
inductive JwtToken where
  | tok (body : Payload) (sig : JwtSig) : JwtToken
  | malformed : JwtToken
deriving DecidableEq

/-- The two failure modes of the `jwt.decode` collaborator used by the code:
`ExpiredSignatureError` and `InvalidTokenError`. -/
inductive JwtDecodeError where
  | expiredSignature
  | invalidToken
deriving DecidableEq

/-- Modelled from the spec: `jwt.encode(payload, secret, "HS256")` — a
well-formed token signed with `secret` over its own payload. -/
def jwtEncode (secret : String) (p : Payload) : JwtToken :=
  .tok p (.mac secret p)

/-- Modelled from the spec: `jwt.decode(token, secret, ["HS256"])` at time
`now`.  A malformed structure or a signature that is not a MAC with `secret`
over the token body fails with `InvalidTokenError`; a correctly signed token
whose expiry has passed ("Fails with `Expired` when `now > expiresAt`")
fails with `ExpiredSignatureError`; otherwise the payload is returned. -/
def jwtDecode (secret : String) (now : Nat) : JwtToken → Except JwtDecodeError Payload
  | .malformed => .error .invalidToken
  | .tok body sig =>
    if sig = JwtSig.mac secret body then
      if now > body.exp then .error .expiredSignature
      else .ok body
    else .error .invalidToken

/-- An `HTTPException` value: status code and detail string. -/
structure HttpError where
  status_code : Nat
  detail : String
deriving DecidableEq

/-- The exception raised by `verify_jwt_token` on `ExpiredSignatureError`. -/
def tokenExpiredError : HttpError := ⟨401, "Token has expired"⟩

/-- The exception raised by `verify_jwt_token` on `InvalidTokenError`. -/
def invalidTokenError : HttpError := ⟨401, "Invalid token"⟩

/-- `AuthConstants.UNAUTHORIZED` (types.py). -/
def UNAUTHORIZED : HttpError :=
  ⟨401, "Unauthorized: Access is denied due to invalid credentials."⟩

/-- `AuthConstants.FORBIDDEN` (types.py). -/
def FORBIDDEN : HttpError :=
  ⟨403, "Forbidden: You do not have permission to access this resource."⟩

/-- The `user_data` dict fields read by `create_jwt_token`
(`user_data["id"]`, `user_data["username"]`, `user_data.get("avatar")`). -/
structure UserData where
  id : String
  username : String
  avatar : Option String
deriving DecidableEq

/-- `DiscordOAuth.create_jwt_token` (oauth.py lines 100–114): payload with
`iat = now` and `exp = now + timedelta(hours=24)` (86400 seconds), signed
with the configured secret. -/
def create_jwt_token (jwt_secret : String) (user_data : UserData)
    (discord_access_token : String) (now : Nat) : JwtToken :=
  jwtEncode jwt_secret
    { user_id := user_data.id
      username := user_data.username
      avatar := user_data.avatar
      discord_access_token := discord_access_token
      iat := now
      exp := now + 86400 }

/-- `DiscordOAuth.verify_jwt_token` (oauth.py lines 116–129): decode, and
translate the two library errors into the two 401 `HTTPException`s. -/
def verify_jwt_token (jwt_secret : String) (now : Nat) (token : JwtToken) :
    Except HttpError Payload :=
  match jwtDecode jwt_secret now token with
  | .ok payload => .ok payload
  | .error .expiredSignature => .error tokenExpiredError
  | .error .invalidToken => .error invalidTokenError

/-- True iff the token is structurally well-formed and its signature is a
valid MAC with `secret` over its own body. -/
def isWellSigned (secret : String) : JwtToken → Bool
  | .tok body sig => sig == JwtSig.mac secret body
  | .malformed => false

/-- The `exp` claim of a well-formed token (0 for a malformed one). -/
def tokenExp : JwtToken → Nat
  | .tok body _ => body.exp
  | .malformed => 0

/-! ## Middleware types (types.py) and the permission cache (utils.py) -/

/-- `AuthType` (types.py). -/
inductive AuthType where
  | USER
  | BOT
deriving DecidableEq

/-- `AuthData` (types.py lines 55–76). -/
structure AuthData where
  auth_type : AuthType
  user_id : String
  username : String
  avatar : Option String := none
  discord_token : Option String := none
  iat : Option Nat := none
  exp : Option Nat := none
deriving DecidableEq

/-- Python truthiness of an `Optional[str]`: `None` and `""` are falsy. -/
def optStrTruthy : Option String → Bool
  | some s => s != ""
  | none => false

/-- Key of the module-level `_permission_cache` dict: `(user_id, guild_id)`. -/
abbrev CacheKey := String × String

/-- One entry of `_permission_cache`:
`(user_id, guild_id) ↦ (has_permission, timestamp)`. -/
structure CacheEntry where
  key : CacheKey
  has_permission : Bool
  cached_time : Nat
deriving DecidableEq

/-- The `_permission_cache` dict, modelled as an insertion-ordered
association list with (at most) unique keys. -/
abbrev PermissionCache := List CacheEntry

/-- `PERMISSION_CACHE_TTL = 60` (utils.py). -/
def PERMISSION_CACHE_TTL : Nat := 60

/-- Dict lookup `_permission_cache[cache_key]` (first entry with the key). -/
def cacheFind (k : CacheKey) : PermissionCache → Option (Bool × Nat)
  | [] => none
  | e :: rest =>
    if e.key = k then some (e.has_permission, e.cached_time) else cacheFind k rest

/-- Dict assignment `_permission_cache[cache_key] = value`: replace the
entry in place if present, else append. -/
def cacheInsert (k : CacheKey) (v : Bool) (t : Nat) : PermissionCache → PermissionCache
  | [] => [⟨k, v, t⟩]
  | e :: rest => if e.key = k then ⟨k, v, t⟩ :: rest else e :: cacheInsert k v t rest

/-- `_cleanup_expired_cache` (utils.py lines 142–153): delete every entry
with `current_time - cached_time >= PERMISSION_CACHE_TTL`.  `Nat`
subtraction truncates at 0, which agrees with the Python float test for the
`>= 60` comparison on every input. -/
def _cleanup_expired_cache (current_time : Nat) : PermissionCache → PermissionCache
  | [] => []
  | e :: rest =>
    if current_time - e.cached_time ≥ PERMISSION_CACHE_TTL then
      _cleanup_expired_cache current_time rest
    else
      e :: _cleanup_expired_cache current_time rest

deriving instance DecidableEq for Except

/-- Result of one `require_permission` call: the outcome (`Except.error
FORBIDDEN` models the raised `AuthConstants.FORBIDDEN`), the permission
cache after the call, and whether the external Discord check was invoked. -/
structure VerifyResult where
  outcome : Except HttpError Unit
  cache : PermissionCache
  called_external : Bool

/-- `_verify_guild_admin_permission` (utils.py lines 87–139).  `current_time`
is `time.time()`; `fetched` is the response the Discord API would give to
`get_user_guilds(auth.discord_token)` during this call. -/
def _verify_guild_admin_permission (auth : AuthData) (guild_id : String)
    (current_time : Nat) (fetched : Except Unit (List RawGuild))
    (cache : PermissionCache) : VerifyResult :=
  if optStrTruthy auth.discord_token = false then
    ⟨.error FORBIDDEN, cache, false⟩
  else
    let cache₁ := _cleanup_expired_cache current_time cache
    match cacheFind (auth.user_id, guild_id) cache₁ with
    | some (has_permission, _) =>
      ⟨if has_permission then .ok () else .error FORBIDDEN, cache₁, false⟩
    | none =>
      let has_permission := check_guild_permissions guild_id fetched
      let cache₂ := cacheInsert (auth.user_id, guild_id) has_permission current_time cache₁
      ⟨if has_permission then .ok () else .error FORBIDDEN, cache₂, true⟩

/-- `require_permission` (utils.py lines 58–84): bots always pass; JWT users
with a (truthy) guild id go through the guild-admin verification; every
other combination raises `FORBIDDEN`. -/
def require_permission (auth : AuthData) (guild_id : Option String)
    (current_time : Nat) (fetched : Except Unit (List RawGuild))
    (cache : PermissionCache) : VerifyResult :=
  if auth.auth_type = AuthType.BOT then
    ⟨.ok (), cache, false⟩
  else if auth.auth_type = AuthType.USER ∧ optStrTruthy guild_id = true then
    _verify_guild_admin_permission auth (guild_id.getD "") current_time fetched cache
  else
    ⟨.error FORBIDDEN, cache, false⟩

/-- The decision rule of the spec's `requirePermission` for a human user:
the cached boolean when the (post-sweep) cache holds the key, otherwise the
freshly fetched guild-admin check. -/
def cachedOrFreshDecision (user_id guild_id : String) (current_time : Nat)
    (fetched : Except Unit (List RawGuild)) (cache : PermissionCache) : Bool :=
  match cacheFind (user_id, guild_id) (_cleanup_expired_cache current_time cache) with
  | some (b, _) => b
  | none => check_guild_permissions guild_id fetched

/-! ## Route classification and guild-id extraction (middleware/auth.py) -/

/-- `AuthMiddleware.PUBLIC_ROUTES` (middleware/auth.py lines 27–37). -/
def PUBLIC_ROUTES : List String :=
  ["/", "/health", "/docs", "/redoc", "/favicon.ico", "/openapi.json",
   "/api/auth/url", "/api/auth/invite", "/api/auth/callback"]

/-- Python `s.startswith(p)`, over the char lists. -/
def pyStartsWith (p s : String) : Bool :=
  p.data.isPrefixOf s.data

/-- `AuthMiddleware._is_public_route` (middleware/auth.py lines 109–117):
exact member of `PUBLIC_ROUTES`, or `path.startswith(route + "/")` for some
public route other than `"/"`. -/
def _is_public_route (path : String) : Bool :=
  PUBLIC_ROUTES.contains path ||
    PUBLIC_ROUTES.any (fun route => route != "/" && pyStartsWith (route ++ "/") path)

/-- The pre-handler short-circuit of `AuthMiddleware.dispatch` (lines 42–51):
`OPTIONS` requests and public routes skip authentication entirely. -/
def dispatchSkipsAuth (method path : String) : Bool :=
  method == "OPTIONS" || _is_public_route path

/-- Consume a literal char sequence at the head of the input, returning the
remainder on success. -/
def dropLiteral : List Char → List Char → Option (List Char)
  | [], s => some s
  | _ :: _, [] => none
  | p :: ps, c :: cs => if p = c then dropLiteral ps cs else none

/-- Maximal digit run at the head of the input, with the remainder. -/
def takeDigits : List Char → List Char × List Char
  | [] => ([], [])
  | c :: rest =>
    if isAsciiDigit c then
      let (ds, rem) := takeDigits rest
      (c :: ds, rem)
    else
      ([], c :: rest)

/-- Attempt to match `GUILD_ID_PATTERN = r"/api/guilds/(\d+)/"` starting at
the head of the input: the literal `/api/guilds/`, then one or more digits
(captured), then a `/`. -/
def guildIdMatchAt (s : List Char) : Option String :=
  match dropLiteral "/api/guilds/".data s with
  | none => none
  | some rem =>
    match takeDigits rem with
    | ([], _) => none
    | (ds, rem₂) =>
      match rem₂ with
      | '/' :: _ => some (String.mk ds)
      | _ => none

/-- `re.search` of `GUILD_ID_PATTERN`: try every start position from the
left; the first position where the pattern matches wins. -/
def guildIdSearch : List Char → Option String
  | [] => none
  | c :: rest =>
    match guildIdMatchAt (c :: rest) with
    | some g => some g
    | none => guildIdSearch rest

/-- `AuthMiddleware._extract_guild_id` (middleware/auth.py lines 119–131):
first a `GUILD_ID_PATTERN` search on the path, then the (truthy) `guild_id`
query parameter, else `None`. -/
def _extract_guild_id (path : String) (guild_id_query : Option String) : Option String :=
  match guildIdSearch path.data with
  | some g => some g
  | none =>
    match guild_id_query with
    | some q => if q != "" then some q else none
    | none => none

/-! ## Credential extraction (`AuthMiddleware._authenticate`, lines 71–107) -/

/-- The `Authorization` header, identified with its parse: absent, present
but not of the form `Bearer <...>` (including the empty default), `Bearer `
followed by the empty token, or `Bearer ` followed by a token string
(represented by the token's parse). -/
inductive AuthHeader where
  | absent : AuthHeader
  | other (raw : String) : AuthHeader
  | bearerEmpty : AuthHeader
  | bearer (token : JwtToken) : AuthHeader
deriving DecidableEq

/-- The closed set of failures `_authenticate` can raise. -/
inductive AuthFailure where
  | invalidApiKey
  | emptyToken
  | jwtRejected (e : HttpError)
  | authRequired
deriving DecidableEq

/-- `AuthConstants.API_KEYS` (types.py lines 34–37): split the environment
string on commas, strip each piece, drop the falsy (empty) ones. -/
def API_KEYS (raw : String) : List String :=
  ((raw.splitOn ",").map String.trim).filter (fun k => k != "")

/-- The bearer-token tail of `_authenticate` (lines 86–103): reached when no
truthy API key header is present. -/
def _authenticate_bearer (jwt_secret : String) (now : Nat) :
    AuthHeader → Except AuthFailure AuthData
  | .bearerEmpty => .error .emptyToken
  | .bearer token =>
    match verify_jwt_token jwt_secret now token with
    | .ok jwt_data =>
      .ok { auth_type := AuthType.USER
            user_id := jwt_data.user_id
            username := jwt_data.username
            avatar := jwt_data.avatar
            discord_token := some jwt_data.discord_access_token
            iat := some jwt_data.iat
            exp := some jwt_data.exp }
    | .error e => .error (.jwtRejected e)
  | .absent => .error .authRequired
  | .other _ => .error .authRequired

/-- `AuthMiddleware._authenticate` (lines 71–107): a truthy API key header
must be in the configured key set and yields the fixed bot identity;
otherwise fall through to bearer-token handling. -/
def _authenticate (api_keys : List String) (jwt_secret : String) (now : Nat)
    (api_key : Option String) (auth_header : AuthHeader) : Except AuthFailure AuthData :=
  match api_key with
  | some k =>
    if k != "" then
      if api_keys.contains k then
        .ok { auth_type := AuthType.BOT, user_id := "plana_bot", username := "Plana Bot" }
      else
        .error .invalidApiKey
    else
      _authenticate_bearer jwt_secret now auth_header
  | none => _authenticate_bearer jwt_secret now auth_header

/-! ## Helper lemmas -/

theorem check_eq_true_iff (guild_id : String) (fetched : Except Unit (List RawGuild)) :
    check_guild_permissions guild_id fetched = true ↔
      checkGuildPermissionsE guild_id fetched = Except.ok true := by
  unfold check_guild_permissions
  rcases hE : checkGuildPermissionsE guild_id fetched with e | b
  · simp
  · cases b <;> simp

theorem findTargetGuild_no_match (guild_id : String) :
    ∀ entries : List RawGuild,
      (∀ g ∈ entries, ∀ v, g.id = some v → pyStr v ≠ guild_id) →
        findTargetGuild guild_id entries = .ok none ∨
          findTargetGuild guild_id entries = .error () := by
  intro entries
  induction entries with
  | nil => intro _; left; rfl
  | cons g rest ih =>
    intro h
    have hrec := ih fun g' hg' => h g' (by simp [hg'])
    cases hid : g.id with
    | none => right; simp [findTargetGuild, hid]
    | some v =>
      have hne := h g (by simp) v hid
      rcases hrec with hr | hr
      · left; simp [findTargetGuild, hid, hne, hr]
      · right; simp [findTargetGuild, hid, hne, hr]

theorem findTargetGuild_first_match (guild_id : String) (g : RawGuild) (v : PyVal)
    (hv : g.id = some v) (hmatch : pyStr v = guild_id) :
    ∀ first rest : List RawGuild,
      (∀ g' ∈ first, ∃ v', g'.id = some v' ∧ pyStr v' ≠ guild_id) →
        findTargetGuild guild_id (first ++ g :: rest) = .ok (some g) := by
  intro first
  induction first with
  | nil =>
    intro rest _
    simp [findTargetGuild, hv, hmatch]
  | cons g' first' ih =>
    intro rest h
    obtain ⟨v', hv', hne⟩ := h g' (by simp)
    have hrec := ih rest fun g'' hg'' => h g'' (by simp [hg''])
    simp [findTargetGuild, hv', hne, hrec]

theorem cacheFind_cleanup_of_none (k : CacheKey) (t : Nat) :
    ∀ c : PermissionCache, cacheFind k c = none →
      cacheFind k (_cleanup_expired_cache t c) = none := by
  intro c
  induction c with
  | nil => intro _; rfl
  | cons e rest ih =>
    intro h
    have hk : ¬ e.key = k := by
      intro hk
      simp [cacheFind, hk] at h
    rw [cacheFind, if_neg hk] at h
    by_cases ht : t - e.cached_time ≥ PERMISSION_CACHE_TTL
    · rw [_cleanup_expired_cache, if_pos ht]
      exact ih h
    · rw [_cleanup_expired_cache, if_neg ht, cacheFind, if_neg hk]
      exact ih h

theorem cacheInsert_of_none (k : CacheKey) (v : Bool) (t : Nat) :
    ∀ c : PermissionCache, cacheFind k c = none →
      cacheInsert k v t c = c ++ [⟨k, v, t⟩] := by
  intro c
  induction c with
  | nil => intro _; rfl
  | cons e rest ih =>
    intro h
    have hk : ¬ e.key = k := by
      intro hk
      simp [cacheFind, hk] at h
    rw [cacheFind, if_neg hk] at h
    rw [cacheInsert, if_neg hk, List.cons_append, ih h]

theorem cleanup_append (t : Nat) :
    ∀ a b : PermissionCache,
      _cleanup_expired_cache t (a ++ b) =
        _cleanup_expired_cache t a ++ _cleanup_expired_cache t b := by
  intro a b
  induction a with
  | nil => rfl
  | cons e rest ih =>
    rw [List.cons_append, _cleanup_expired_cache, _cleanup_expired_cache]
    by_cases ht : t - e.cached_time ≥ PERMISSION_CACHE_TTL
    · rw [if_pos ht, if_pos ht, ih]
    · rw [if_neg ht, if_neg ht, List.cons_append, ih]

theorem cacheFind_append_of_none (k : CacheKey) :
    ∀ a b : PermissionCache, cacheFind k a = none →
      cacheFind k (a ++ b) = cacheFind k b := by
  intro a b
  induction a with
  | nil => intro _; rfl
  | cons e rest ih =>
    intro h
    have hk : ¬ e.key = k := by
      intro hk
      simp [cacheFind, hk] at h
    rw [cacheFind, if_neg hk] at h
    rw [List.cons_append, cacheFind, if_neg hk]
    exact ih h

theorem mem_cleanup (t : Nat) (e : CacheEntry) :
    ∀ c : PermissionCache,
      e ∈ _cleanup_expired_cache t c ↔
        e ∈ c ∧ t - e.cached_time < PERMISSION_CACHE_TTL := by
  intro c
  induction c with
  | nil => simp [_cleanup_expired_cache]
  | cons e' rest ih =>
    rw [_cleanup_expired_cache]
    by_cases ht : t - e'.cached_time ≥ PERMISSION_CACHE_TTL
    · rw [if_pos ht, ih]
      constructor
      · rintro ⟨hm, hlt⟩
        exact ⟨List.mem_cons_of_mem _ hm, hlt⟩
      · rintro ⟨hm, hlt⟩
        rcases List.mem_cons.mp hm with rfl | hm'
        · omega
        · exact ⟨hm', hlt⟩
    · rw [if_neg ht]
      constructor
      · intro hm
        rcases List.mem_cons.mp hm with rfl | hm'
        · exact ⟨List.mem_cons_self _ _, by omega⟩
        · obtain ⟨hm'', hlt⟩ := ih.mp hm'
          exact ⟨List.mem_cons_of_mem _ hm'', hlt⟩
      · rintro ⟨hm, hlt⟩
        rcases List.mem_cons.mp hm with rfl | hm'
        · exact List.mem_cons_self _ _
        · exact List.mem_cons_of_mem _ (ih.mpr ⟨hm', hlt⟩)

theorem mem_cacheInsert (k : CacheKey) (v : Bool) (t : Nat) (e : CacheEntry) :
    ∀ c : PermissionCache,
      e ∈ cacheInsert k v t c → e = ⟨k, v, t⟩ ∨ e ∈ c := by
  intro c
  induction c with
  | nil => simp [cacheInsert]
  | cons e' rest ih =>
    rw [cacheInsert]
    by_cases hk : e'.key = k
    · rw [if_pos hk]
      intro hm
      rcases List.mem_cons.mp hm with rfl | hm'
      · exact Or.inl rfl
      · exact Or.inr (List.mem_cons_of_mem _ hm')
    · rw [if_neg hk]
      intro hm
      rcases List.mem_cons.mp hm with rfl | hm'
      · exact Or.inr (List.mem_cons_self _ _)
      · rcases ih hm' with h | h
        · exact Or.inl h
        · exact Or.inr (List.mem_cons_of_mem _ h)

theorem require_permission_user (auth : AuthData) (g : String)
    (t : Nat) (f : Except Unit (List RawGuild)) (c : PermissionCache)
    (hAuth : auth.auth_type = AuthType.USER) (hg : g ≠ "") :
    require_permission auth (some g) t f c =
      _verify_guild_admin_permission auth g t f c := by
  rw [require_permission, if_neg (by rw [hAuth]; intro h; cases h)]
  rw [if_pos ⟨hAuth, by simp [optStrTruthy, hg]⟩]
  rfl

theorem verify_guild_admin_hit (auth : AuthData) (g : String)
    (t : Nat) (f : Except Unit (List RawGuild)) (c : PermissionCache)
    (b : Bool) (ct : Nat)
    (hTok : optStrTruthy auth.discord_token = true)
    (hfind : cacheFind (auth.user_id, g) (_cleanup_expired_cache t c) = some (b, ct)) :
    _verify_guild_admin_permission auth g t f c =
      ⟨if b then .ok () else .error FORBIDDEN, _cleanup_expired_cache t c, false⟩ := by
  rw [_verify_guild_admin_permission, if_neg (by rw [hTok]; intro h; cases h)]
  simp only [hfind]

theorem verify_guild_admin_miss (auth : AuthData) (g : String)
    (t : Nat) (f : Except Unit (List RawGuild)) (c : PermissionCache)
    (hTok : optStrTruthy auth.discord_token = true)
    (hfind : cacheFind (auth.user_id, g) (_cleanup_expired_cache t c) = none) :
    _verify_guild_admin_permission auth g t f c =
      ⟨if check_guild_permissions g f then .ok () else .error FORBIDDEN,
       cacheInsert (auth.user_id, g) (check_guild_permissions g f) t
         (_cleanup_expired_cache t c),
       true⟩ := by
  rw [_verify_guild_admin_permission, if_neg (by rw [hTok]; intro h; cases h)]
  simp only [hfind]

/-! ## Claim theorems -/

/-- Claim C2: every fetch or parse failure inside `check_guild_permissions`
is caught and yields `false`; nothing is propagated, and a grant can only
come from a successfully fetched and parsed membership list whose admin
check computed `true`. -/
theorem check_guild_permissions_fail_closed :
    (∀ (guild_id : String) (e : Unit),
      check_guild_permissions guild_id (Except.error e) = false) ∧
    (∀ (guild_id : String) (fetched : Except Unit (List RawGuild)),
      checkGuildPermissionsE guild_id fetched = Except.error () →
        check_guild_permissions guild_id fetched = false) ∧
    (∀ (guild_id : String) (fetched : Except Unit (List RawGuild)),
      check_guild_permissions guild_id fetched = true →
        ∃ entries, fetched = Except.ok entries ∧
          checkGuildPermissionsE guild_id fetched = Except.ok true) := by
  refine ⟨fun gid e => rfl,
    fun gid fetched h => by unfold check_guild_permissions; rw [h], ?_⟩
  intro gid fetched h
  have hE := (check_eq_true_iff gid fetched).mp h
  cases fetched with
  | error e => simp [checkGuildPermissionsE] at hE
  | ok entries => exact ⟨entries, rfl, hE⟩

/-- Witness for C2 at concrete inputs: a failed fetch and a malformed
permissions value both yield `false`. -/
theorem check_guild_permissions_fail_closed_witness :
    check_guild_permissions "111" (Except.error ()) = false ∧
    check_guild_permissions "111"
      (Except.ok [⟨some (PyVal.str "111"), some (PyVal.str "notanumber")⟩]) = false :=
  ⟨check_guild_permissions_fail_closed.1 "111" (),
   check_guild_permissions_fail_closed.2.1 "111"
     (Except.ok [⟨some (PyVal.str "111"), some (PyVal.str "notanumber")⟩]) (by decide)⟩

/-- Claim C3: with a successfully fetched membership list,
`check_guild_permissions` returns `false` when no entry's id equals the
guild id under `str(...)` normalization, and otherwise answers `true`
exactly when the (first) matching entry's parsed permissions value has bit
0x8 set; the three concrete examples of the spec evaluate as stated. -/
theorem check_guild_permissions_admin_bit :
    (∀ (guild_id : String) (entries : List RawGuild),
      (∀ g ∈ entries, ∀ v, g.id = some v → pyStr v ≠ guild_id) →
        check_guild_permissions guild_id (Except.ok entries) = false) ∧
    (∀ (guild_id : String) (first rest : List RawGuild) (g : RawGuild) (v : PyVal) (p : Int),
      (∀ g' ∈ first, ∃ v', g'.id = some v' ∧ pyStr v' ≠ guild_id) →
      g.id = some v → pyStr v = guild_id →
      pyInt (g.permissions.getD (PyVal.int 0)) = some p →
        (check_guild_permissions guild_id (Except.ok (first ++ g :: rest)) = true ↔
          pyAnd p ADMIN_PERMISSION ≠ 0)) ∧
    check_guild_permissions "111"
      (Except.ok [⟨some (PyVal.str "111"), some (PyVal.str "8")⟩]) = true ∧
    check_guild_permissions "111"
      (Except.ok [⟨some (PyVal.str "111"), some (PyVal.str "0")⟩]) = false ∧
    check_guild_permissions "111" (Except.ok []) = false := by
  refine ⟨?_, ?_, by decide, by decide, by decide⟩
  · intro gid entries h
    rcases findTargetGuild_no_match gid entries h with hf | hf
    · have hE : checkGuildPermissionsE gid (Except.ok entries) = .ok false := by
        show checkAfterFetch gid entries = .ok false
        unfold checkAfterFetch
        simp only [hf]
      unfold check_guild_permissions
      rw [hE]
    · have hE : checkGuildPermissionsE gid (Except.ok entries) = .error () := by
        show checkAfterFetch gid entries = .error ()
        unfold checkAfterFetch
        simp only [hf]
      unfold check_guild_permissions
      rw [hE]
  · intro gid first rest g v p hfirst hv hmatch hp
    have hfind := findTargetGuild_first_match gid g v hv hmatch first rest hfirst
    rw [check_eq_true_iff]
    have hE : checkGuildPermissionsE gid (Except.ok (first ++ g :: rest)) =
        checkAfterFetch gid (first ++ g :: rest) := rfl
    rw [hE]
    unfold checkAfterFetch
    simp only [hfind, hp]
    simp [decide_eq_true_iff]

/-- Witness for C3 at concrete inputs: a non-matching list yields `false`
and a matching admin entry (after a non-matching one) yields `true`. -/
theorem check_guild_permissions_admin_bit_witness :
    check_guild_permissions "222"
      (Except.ok [⟨some (PyVal.str "111"), some (PyVal.str "8")⟩]) = false ∧
    (check_guild_permissions "222"
      (Except.ok [⟨some (PyVal.str "111"), some (PyVal.str "0")⟩,
                  ⟨some (PyVal.str "222"), some (PyVal.int 12)⟩]) = true ↔
      pyAnd 12 ADMIN_PERMISSION ≠ 0) :=
  ⟨check_guild_permissions_admin_bit.1 "222"
      [⟨some (PyVal.str "111"), some (PyVal.str "8")⟩]
      (by intro g hg v hv; simp at hg; subst hg; simp at hv; subst hv; decide),
   check_guild_permissions_admin_bit.2.1 "222"
      [⟨some (PyVal.str "111"), some (PyVal.str "0")⟩] []
      ⟨some (PyVal.str "222"), some (PyVal.int 12)⟩ (PyVal.str "222") 12
      (by intro g hg; simp at hg; subst hg; exact ⟨PyVal.str "111", rfl, by decide⟩)
      rfl rfl rfl⟩

/-- Claim C4: verifying a freshly minted credential at any time strictly
before its expiry succeeds and returns the minted claims, with
`iat = mint time` and `exp = mint time + 24h`. -/
theorem verify_mint_roundtrip (jwt_secret : String) (u : UserData) (tok : String)
    (mint_time t : Nat) (h : t < mint_time + 86400) :
    verify_jwt_token jwt_secret t (create_jwt_token jwt_secret u tok mint_time) =
      Except.ok { user_id := u.id, username := u.username, avatar := u.avatar,
                  discord_access_token := tok, iat := mint_time,
                  exp := mint_time + 86400 } := by
  have hexp : ¬ t > mint_time + 86400 := by omega
  simp [verify_jwt_token, create_jwt_token, jwtEncode, jwtDecode, hexp]

/-- Witness for C4 at a concrete mint time and verification time. -/
theorem verify_mint_roundtrip_witness :
    (5 : Nat) < 0 + 86400 ∧
    verify_jwt_token "secret" 5 (create_jwt_token "secret" ⟨"id1", "alice", none⟩ "dtok" 0) =
      Except.ok ⟨"id1", "alice", none, "dtok", 0, 0 + 86400⟩ :=
  ⟨by omega, verify_mint_roundtrip "secret" ⟨"id1", "alice", none⟩ "dtok" 0 5 (by omega)⟩

/-- Claim C5: `verify_jwt_token` fails with the 401 "Token has expired"
error exactly when the credential is well-formed, correctly signed and past
expiry, fails with the 401 "Invalid token" error exactly when the signature
does not verify or the structure is malformed, and these distinct values
are its only failure outcomes. -/
theorem verify_jwt_token_error_taxonomy (secret : String) (now : Nat) (token : JwtToken) :
    (verify_jwt_token secret now token = Except.error tokenExpiredError ↔
      isWellSigned secret token = true ∧ now > tokenExp token) ∧
    (verify_jwt_token secret now token = Except.error invalidTokenError ↔
      isWellSigned secret token = false) ∧
    (∀ e, verify_jwt_token secret now token = Except.error e →
      e = tokenExpiredError ∨ e = invalidTokenError) ∧
    tokenExpiredError ≠ invalidTokenError := by
  have hne : tokenExpiredError ≠ invalidTokenError := by decide
  have hne' : invalidTokenError ≠ tokenExpiredError := by decide
  cases token with
  | malformed =>
    refine ⟨by simp [verify_jwt_token, jwtDecode, isWellSigned, hne, hne'],
            by simp [verify_jwt_token, jwtDecode, isWellSigned],
            ?_, hne⟩
    intro e he
    simp [verify_jwt_token, jwtDecode] at he
    exact Or.inr he.symm
  | tok body sig =>
    by_cases hs : sig = JwtSig.mac secret body
    · by_cases hexp : now > body.exp
      · refine ⟨?_, ?_, ?_, hne⟩
        · simp [verify_jwt_token, jwtDecode, isWellSigned, tokenExp, hs, hexp]
        · simp [verify_jwt_token, jwtDecode, isWellSigned, hs, hexp, hne, hne']
        · intro e he
          simp [verify_jwt_token, jwtDecode, hs, hexp] at he
          exact Or.inl he.symm
      · refine ⟨?_, ?_, ?_, hne⟩
        · simp [verify_jwt_token, jwtDecode, isWellSigned, tokenExp, hs, hexp]
        · simp [verify_jwt_token, jwtDecode, isWellSigned, hs, hexp]
        · intro e he
          simp [verify_jwt_token, jwtDecode, hs, hexp] at he
    · refine ⟨?_, ?_, ?_, hne⟩
      · simp [verify_jwt_token, jwtDecode, isWellSigned, hs, hne, hne']
      · simp [verify_jwt_token, jwtDecode, isWellSigned, hs]
      · intro e he
        simp [verify_jwt_token, jwtDecode, hs] at he
        exact Or.inr he.symm

/-- Witness for C5: an expired well-signed token fails with the expired
error, which indeed is one of the two failure values. -/
theorem verify_jwt_token_error_taxonomy_witness :
    verify_jwt_token "secret" 90000
      (create_jwt_token "secret" ⟨"id1", "alice", none⟩ "dtok" 0) =
        Except.error tokenExpiredError ∧
    (tokenExpiredError = tokenExpiredError ∨ tokenExpiredError = invalidTokenError) :=
  ⟨by decide,
   (verify_jwt_token_error_taxonomy "secret" 90000
      (create_jwt_token "secret" ⟨"id1", "alice", none⟩ "dtok" 0)).2.2.1
     tokenExpiredError (by decide)⟩

/-- Counterexample to C1 as stated: a guild id that is present but empty
(`some ""`), or a Discord token that is present but empty, is falsy in the
code's truthiness tests, so `require_permission` denies even though the
guild-admin check for the pair returns `true`. -/
theorem require_permission_present_empty_counterexample :
    check_guild_permissions ""
      (Except.ok [⟨some (PyVal.str ""), some (PyVal.str "8")⟩]) = true ∧
    (require_permission ⟨AuthType.USER, "u1", "alice", none, some "tok", none, none⟩
        (some "") 0 (Except.ok [⟨some (PyVal.str ""), some (PyVal.str "8")⟩]) []).outcome =
      Except.error FORBIDDEN ∧
    check_guild_permissions "5"
      (Except.ok [⟨some (PyVal.str "5"), some (PyVal.str "8")⟩]) = true ∧
    (require_permission ⟨AuthType.USER, "u1", "alice", none, some "", none, none⟩
        (some "5") 0 (Except.ok [⟨some (PyVal.str "5"), some (PyVal.str "8")⟩]) []).outcome =
      Except.error FORBIDDEN := by
  decide

/-- Claim C1 (amended): `require_permission` allows exactly when the caller
is an API-key bot, or a JWT user with a present *non-empty* guild id, a
present *non-empty* Discord token, and a cached-or-freshly-fetched
guild-admin check of `true`; in every other case the outcome is the 403
`FORBIDDEN` exception. -/
theorem require_permission_access_rule (auth : AuthData) (guild_id : Option String)
    (current_time : Nat) (fetched : Except Unit (List RawGuild)) (cache : PermissionCache) :
    ((require_permission auth guild_id current_time fetched cache).outcome = Except.ok () ↔
      (auth.auth_type = AuthType.BOT ∨
        (auth.auth_type = AuthType.USER ∧ optStrTruthy guild_id = true ∧
          optStrTruthy auth.discord_token = true ∧
          cachedOrFreshDecision auth.user_id (guild_id.getD "") current_time fetched cache
            = true))) ∧
    ((require_permission auth guild_id current_time fetched cache).outcome ≠ Except.ok () →
      (require_permission auth guild_id current_time fetched cache).outcome =
        Except.error FORBIDDEN) := by
  cases hbt : auth.auth_type with
  | BOT =>
    rw [require_permission, if_pos hbt]
    exact ⟨by simp [hbt], fun h => absurd rfl h⟩
  | USER =>
    have hnb : ¬ auth.auth_type = AuthType.BOT := by rw [hbt]; intro h; cases h
    by_cases hg : optStrTruthy guild_id = true
    · rw [require_permission, if_neg hnb, if_pos ⟨hbt, hg⟩]
      by_cases ht : optStrTruthy auth.discord_token = true
      · rcases hfind : cacheFind (auth.user_id, guild_id.getD "")
            (_cleanup_expired_cache current_time cache) with _ | ⟨b, ct⟩
        · rw [verify_guild_admin_miss auth _ current_time fetched cache ht hfind]
          have hd : cachedOrFreshDecision auth.user_id (guild_id.getD "")
              current_time fetched cache =
              check_guild_permissions (guild_id.getD "") fetched := by
            unfold cachedOrFreshDecision
            simp only [hfind]
          cases hc : check_guild_permissions (guild_id.getD "") fetched <;>
            simp [hbt, hg, ht, hd, hc]
        · rw [verify_guild_admin_hit auth _ current_time fetched cache b ct ht hfind]
          have hd : cachedOrFreshDecision auth.user_id (guild_id.getD "")
              current_time fetched cache = b := by
            unfold cachedOrFreshDecision
            simp only [hfind]
          cases b <;> simp [hbt, hg, ht, hd]
      · have ht0 : optStrTruthy auth.discord_token = false := by
          revert ht; cases optStrTruthy auth.discord_token <;> simp
        rw [_verify_guild_admin_permission, if_pos ht0]
        simp [hbt, hg, ht0]
    · have hcond : ¬ (auth.auth_type = AuthType.USER ∧ optStrTruthy guild_id = true) :=
        fun hc => hg hc.2
      rw [require_permission, if_neg hnb, if_neg hcond]
      simp [hbt, hg]

/-- Witness for C1 (amended): a user with no guild id at all is denied with
the 403 outcome. -/
theorem require_permission_access_rule_witness :
    (require_permission ⟨AuthType.USER, "u1", "alice", none, some "tok", none, none⟩
        none 0 (Except.ok []) []).outcome ≠ Except.ok () ∧
    (require_permission ⟨AuthType.USER, "u1", "alice", none, some "tok", none, none⟩
        none 0 (Except.ok []) []).outcome = Except.error FORBIDDEN :=
  ⟨by decide,
   (require_permission_access_rule
      ⟨AuthType.USER, "u1", "alice", none, some "tok", none, none⟩
      none 0 (Except.ok []) []).2 (by decide)⟩

/-- Claim C6: after a first call that inserted into the cache at `t₁`, a
second call before `t₁ + 60` is served from the cache (no external check,
same outcome whether granted or denied), and a call at or after `t₁ + 60`
invokes the external check again. -/
theorem permission_cache_ttl_behavior (auth : AuthData) (g : String)
    (t₁ t₂ t₃ : Nat) (f₁ f₂ f₃ : Except Unit (List RawGuild)) (cache₀ : PermissionCache)
    (hAuth : auth.auth_type = AuthType.USER)
    (hTok : optStrTruthy auth.discord_token = true)
    (hg : g ≠ "")
    (h₁₂ : t₁ ≤ t₂) (h₂ : t₂ < t₁ + PERMISSION_CACHE_TTL)
    (h₃ : t₁ + PERMISSION_CACHE_TTL ≤ t₃)
    (hmiss : (require_permission auth (some g) t₁ f₁ cache₀).called_external = true) :
    (require_permission auth (some g) t₂ f₂
        (require_permission auth (some g) t₁ f₁ cache₀).cache).called_external = false ∧
    (require_permission auth (some g) t₂ f₂
        (require_permission auth (some g) t₁ f₁ cache₀).cache).outcome =
      (require_permission auth (some g) t₁ f₁ cache₀).outcome ∧
    (require_permission auth (some g) t₃ f₃
        (require_permission auth (some g) t₂ f₂
          (require_permission auth (some g) t₁ f₁ cache₀).cache).cache).called_external
      = true := by
  simp only [PERMISSION_CACHE_TTL] at h₂ h₃
  have hr : ∀ t f c, require_permission auth (some g) t f c =
      _verify_guild_admin_permission auth g t f c :=
    fun t f c => require_permission_user auth g t f c hAuth hg
  have hfind₁ : cacheFind (auth.user_id, g) (_cleanup_expired_cache t₁ cache₀) = none := by
    rcases hf : cacheFind (auth.user_id, g) (_cleanup_expired_cache t₁ cache₀)
        with _ | ⟨b, ct⟩
    · rfl
    · rw [hr, verify_guild_admin_hit auth g t₁ f₁ cache₀ b ct hTok hf] at hmiss
      cases hmiss
  have h₁ : require_permission auth (some g) t₁ f₁ cache₀ =
      ⟨if check_guild_permissions g f₁ then .ok () else .error FORBIDDEN,
       _cleanup_expired_cache t₁ cache₀
         ++ [⟨(auth.user_id, g), check_guild_permissions g f₁, t₁⟩], true⟩ := by
    rw [hr, verify_guild_admin_miss auth g t₁ f₁ cache₀ hTok hfind₁,
        cacheInsert_of_none (auth.user_id, g) (check_guild_permissions g f₁) t₁ _ hfind₁]
  have hclean₂ : _cleanup_expired_cache t₂
      (_cleanup_expired_cache t₁ cache₀
        ++ [⟨(auth.user_id, g), check_guild_permissions g f₁, t₁⟩]) =
      _cleanup_expired_cache t₂ (_cleanup_expired_cache t₁ cache₀)
        ++ [⟨(auth.user_id, g), check_guild_permissions g f₁, t₁⟩] := by
    rw [cleanup_append]
    have hkeep : ¬ t₂ - t₁ ≥ PERMISSION_CACHE_TTL := by
      simp only [PERMISSION_CACHE_TTL]; omega
    simp [_cleanup_expired_cache, hkeep]
  have hfind₂ : cacheFind (auth.user_id, g) (_cleanup_expired_cache t₂
      (_cleanup_expired_cache t₁ cache₀
        ++ [⟨(auth.user_id, g), check_guild_permissions g f₁, t₁⟩])) =
      some (check_guild_permissions g f₁, t₁) := by
    rw [hclean₂, cacheFind_append_of_none (auth.user_id, g) _ _
        (cacheFind_cleanup_of_none (auth.user_id, g) t₂ _ hfind₁),
        cacheFind, if_pos rfl]
  rw [h₁]
  dsimp only
  rw [hr t₂ f₂, verify_guild_admin_hit auth g t₂ f₂ _
      (check_guild_permissions g f₁) t₁ hTok hfind₂]
  dsimp only
  refine ⟨rfl, rfl, ?_⟩
  have hfind₃ : cacheFind (auth.user_id, g) (_cleanup_expired_cache t₃
      (_cleanup_expired_cache t₂
        (_cleanup_expired_cache t₁ cache₀
          ++ [⟨(auth.user_id, g), check_guild_permissions g f₁, t₁⟩]))) = none := by
    rw [hclean₂, cleanup_append]
    have hdrop : t₃ - t₁ ≥ PERMISSION_CACHE_TTL := by
      simp only [PERMISSION_CACHE_TTL]; omega
    rw [show _cleanup_expired_cache t₃
        [(⟨(auth.user_id, g), check_guild_permissions g f₁, t₁⟩ : CacheEntry)] = []
      from by simp [_cleanup_expired_cache, hdrop]]
    rw [List.append_nil]
    exact cacheFind_cleanup_of_none (auth.user_id, g) t₃ _
      (cacheFind_cleanup_of_none (auth.user_id, g) t₂ _ hfind₁)
  rw [hr t₃ f₃, verify_guild_admin_miss auth g t₃ f₃ _ hTok hfind₃]

/-- Witness for C6 at concrete times 0, 59, 60 with an empty initial
cache. -/
theorem permission_cache_ttl_behavior_witness :
    (require_permission ⟨AuthType.USER, "u1", "alice", none, some "tok", none, none⟩
        (some "5") 0 (Except.ok []) []).called_external = true ∧
    (require_permission ⟨AuthType.USER, "u1", "alice", none, some "tok", none, none⟩
        (some "5") 59 (Except.ok [])
        (require_permission ⟨AuthType.USER, "u1", "alice", none, some "tok", none, none⟩
          (some "5") 0 (Except.ok []) []).cache).called_external = false ∧
    (require_permission ⟨AuthType.USER, "u1", "alice", none, some "tok", none, none⟩
        (some "5") 59 (Except.ok [])
        (require_permission ⟨AuthType.USER, "u1", "alice", none, some "tok", none, none⟩
          (some "5") 0 (Except.ok []) []).cache).outcome =
      (require_permission ⟨AuthType.USER, "u1", "alice", none, some "tok", none, none⟩
        (some "5") 0 (Except.ok []) []).outcome ∧
    (require_permission ⟨AuthType.USER, "u1", "alice", none, some "tok", none, none⟩
        (some "5") 60 (Except.ok [])
        (require_permission ⟨AuthType.USER, "u1", "alice", none, some "tok", none, none⟩
          (some "5") 59 (Except.ok [])
          (require_permission ⟨AuthType.USER, "u1", "alice", none, some "tok", none, none⟩
            (some "5") 0 (Except.ok []) []).cache).cache).called_external = true := by
  refine ⟨by decide, ?_⟩
  have h := permission_cache_ttl_behavior
    ⟨AuthType.USER, "u1", "alice", none, some "tok", none, none⟩ "5"
    0 59 60 (Except.ok []) (Except.ok []) (Except.ok []) []
    (by decide) (by decide) (by decide) (by omega) (by decide) (by decide) (by decide)
  exact h

/-- Claim C7: the eviction sweep keeps exactly the entries younger than the
TTL — it inspects every entry, not only the key being looked up — and as a
consequence the cache held after any guild-admin verification contains only
entries whose age (at that verification's time) is below 60 seconds. -/
theorem cleanup_expired_cache_sweep :
    (∀ (current_time : Nat) (cache : PermissionCache) (e : CacheEntry),
      e ∈ _cleanup_expired_cache current_time cache ↔
        e ∈ cache ∧ current_time - e.cached_time < PERMISSION_CACHE_TTL) ∧
    (∀ (auth : AuthData) (guild_id : String) (current_time : Nat)
       (fetched : Except Unit (List RawGuild)) (cache : PermissionCache),
      optStrTruthy auth.discord_token = true →
        ∀ e ∈ (_verify_guild_admin_permission auth guild_id current_time
                fetched cache).cache,
          current_time - e.cached_time < PERMISSION_CACHE_TTL) := by
  refine ⟨fun t c e => mem_cleanup t e c, ?_⟩
  intro auth gid t f c hTok e hmem
  rcases hfind : cacheFind (auth.user_id, gid) (_cleanup_expired_cache t c)
      with _ | ⟨b, ct⟩
  · rw [verify_guild_admin_miss auth gid t f c hTok hfind] at hmem
    dsimp only at hmem
    rcases mem_cacheInsert _ _ _ e _ hmem with rfl | hmem'
    · simp [PERMISSION_CACHE_TTL]
    · exact ((mem_cleanup t e c).mp hmem').2
  · rw [verify_guild_admin_hit auth gid t f c b ct hTok hfind] at hmem
    dsimp only at hmem
    exact ((mem_cleanup t e c).mp hmem).2

/-- Witness for C7: a fresh entry in the post-verification cache has age
below the TTL. -/
theorem cleanup_expired_cache_sweep_witness :
    (⟨("u1", "5"), false, 0⟩ : CacheEntry) ∈
      (_verify_guild_admin_permission
        ⟨AuthType.USER, "u1", "alice", none, some "tok", none, none⟩
        "5" 0 (Except.ok []) []).cache ∧
    (0 : Nat) - (⟨("u1", "5"), false, 0⟩ : CacheEntry).cached_time
      < PERMISSION_CACHE_TTL :=
  ⟨by decide,
   cleanup_expired_cache_sweep.2
     ⟨AuthType.USER, "u1", "alice", none, some "tok", none, none⟩
     "5" 0 (Except.ok []) [] (by decide)
     ⟨("u1", "5"), false, 0⟩ (by decide)⟩

/-- Counterexample to C8 as stated: the code's public set holds
`/api/auth/callback`, not `/auth/callback`, so `/auth/callback/extra` is
NOT public; and the sub-path rule is `startswith`, so `/health/a/b` —
two segments below `/health` — IS public, contradicting the
"one path-segment below" characterization. -/
theorem is_public_route_counterexample :
    _is_public_route "/auth/callback/extra" = false ∧
    _is_public_route "/health/a/b" = true := by
  decide

/-- Claim C8 (amended): `_is_public_route` answers `true` exactly for the
paths in the fixed public set together with every path strictly below a
non-root public path at ANY depth (prefix `route + "/"`); the root `"/"`
is public but does not make `/foo` public, `/api/auth/callback/extra` is
public, and OPTIONS pre-flight requests always skip authentication. -/
theorem is_public_route_characterization :
    (∀ path : String, _is_public_route path = true ↔
      (path ∈ PUBLIC_ROUTES ∨
        ∃ route ∈ PUBLIC_ROUTES, route ≠ "/" ∧ pyStartsWith (route ++ "/") path = true)) ∧
    _is_public_route "/" = true ∧
    _is_public_route "/foo" = false ∧
    _is_public_route "/api/auth/callback/extra" = true ∧
    (∀ path : String, dispatchSkipsAuth "OPTIONS" path = true) := by
  refine ⟨?_, by decide, by decide, by decide, fun path => by simp [dispatchSkipsAuth]⟩
  intro path
  unfold _is_public_route
  simp [List.any_eq_true]

/-- Counterexample to C9 as stated: the pattern requires the fixed segment
`/api/guilds/` (with a trailing slash after the digits), so the spec's
example path `/guilds/123/data` extracts nothing. -/
theorem extract_guild_id_counterexample :
    _extract_guild_id "/guilds/123/data" none = none := by
  decide

/-- Claim C9 (amended): `_extract_guild_id` first returns the digit run
following the leftmost `/api/guilds/` segment when it is non-empty and
followed by `/`; otherwise it falls back to a truthy `guild_id` query
parameter; otherwise it returns none.  `/api/guilds/123/data` extracts
`"123"` (also when a query parameter is present). -/
theorem extract_guild_id_characterization :
    (∀ (path : String) (q : Option String) (g : String),
      guildIdSearch path.data = some g → _extract_guild_id path q = some g) ∧
    (∀ (path : String) (q : String), guildIdSearch path.data = none →
      _extract_guild_id path (some q) = if q != "" then some q else none) ∧
    (∀ path : String, guildIdSearch path.data = none →
      _extract_guild_id path none = none) ∧
    _extract_guild_id "/api/guilds/123/data" none = some "123" ∧
    _extract_guild_id "/api/guilds/123/data" (some "999") = some "123" ∧
    _extract_guild_id "/api/guilds/123" none = none ∧
    _extract_guild_id "/guilds/123/data" (some "77") = some "77" := by
  refine ⟨?_, ?_, ?_, by decide, by decide, by decide, by decide⟩
  · intro path q g h
    unfold _extract_guild_id
    simp only [h]
  · intro path q h
    unfold _extract_guild_id
    simp only [h]
  · intro path h
    unfold _extract_guild_id
    simp only [h]

/-- Witness for C9 (amended): a successful pattern match takes precedence
over the query parameter. -/
theorem extract_guild_id_characterization_witness :
    guildIdSearch ("/api/guilds/9/x").data = some "9" ∧
    _extract_guild_id "/api/guilds/9/x" (some "2") = some "9" :=
  ⟨by decide,
   extract_guild_id_characterization.1 "/api/guilds/9/x" (some "2") "9" (by decide)⟩

/-- Claim C10: an API-key header carrying the empty string is falsy, so
`_authenticate` behaves exactly as if the header were absent — it never
matches the key set and never yields a bot context — and the startup
parsing of the key set can never admit the empty string as a valid key. -/
theorem empty_api_key_ignored :
    (∀ (api_keys : List String) (jwt_secret : String) (now : Nat) (hdr : AuthHeader),
      _authenticate api_keys jwt_secret now (some "") hdr =
        _authenticate api_keys jwt_secret now none hdr) ∧
    (∀ (api_keys : List String) (jwt_secret : String) (now : Nat) (hdr : AuthHeader)
        (a : AuthData),
      _authenticate api_keys jwt_secret now (some "") hdr = Except.ok a →
        a.auth_type ≠ AuthType.BOT) ∧
    (∀ raw : String, "" ∉ API_KEYS raw) := by
  have hempty : ("" != "") = false := by decide
  refine ⟨?_, ?_, ?_⟩
  · intro keys secret now hdr
    simp [_authenticate, hempty]
  · intro keys secret now hdr a h
    simp only [_authenticate, hempty, Bool.false_eq_true, if_false] at h
    cases hdr with
    | absent => simp [_authenticate_bearer] at h
    | other s => simp [_authenticate_bearer] at h
    | bearerEmpty => simp [_authenticate_bearer] at h
    | bearer tk =>
      simp only [_authenticate_bearer] at h
      rcases hv : verify_jwt_token secret now tk with e | p
      · rw [hv] at h
        simp at h
      · rw [hv] at h
        simp only [Except.ok.injEq] at h
        intro hBot
        rw [← h] at hBot
        cases hBot
  · intro raw hmem
    rw [API_KEYS, List.mem_filter] at hmem
    exact absurd hmem.2 (by decide)

/-- Witness for C10: with a configured key set, an empty API-key header
plus a valid bearer token yields a user (non-bot) context. -/
theorem empty_api_key_ignored_witness :
    _authenticate ["k1"] "secret" 0 (some "")
        (AuthHeader.bearer (create_jwt_token "secret" ⟨"id1", "alice", none⟩ "dtok" 0)) =
      Except.ok ⟨AuthType.USER, "id1", "alice", none, some "dtok", some 0, some 86400⟩ ∧
    (⟨AuthType.USER, "id1", "alice", none, some "dtok", some 0, some 86400⟩ :
        AuthData).auth_type ≠ AuthType.BOT :=
  ⟨by decide,
   empty_api_key_ignored.2.1 ["k1"] "secret" 0
     (AuthHeader.bearer (create_jwt_token "secret" ⟨"id1", "alice", none⟩ "dtok" 0))
     ⟨AuthType.USER, "id1", "alice", none, some "dtok", some 0, some 86400⟩ (by decide)⟩

end Plana
